import Mathlib

/-!
Shallow embedding of `src/music_mcp/server.py` (the streaming music
generation MCP tool) and proofs about it.

The Python module drives one streaming generation session per request:
it clamps the requested duration, negotiates prompt and configuration,
consumes a stream of messages (audio chunks or a moderation signal)
under a wall-clock deadline, truncates the accumulated PCM buffer to a
target byte count, writes a WAV file, and publishes it to MinIO with a
local-path fallback.

External effects (the backend stream, base64 decoding from the standard
library, the upload outcome, the generated file name, configuration) are
inputs of the model (`Env`); everything the module itself computes is
translated directly from the source.
-/

namespace MusicMcp

/-- `SAMPLE_RATE = 48_000` (server.py line 21). -/
def SAMPLE_RATE : Nat := 48000

/-- `CHANNELS = 2` (server.py line 22). -/
def CHANNELS : Nat := 2

/-- `SAMPLE_WIDTH = 2` — 16-bit PCM (server.py line 23). -/
def SAMPLE_WIDTH : Nat := 2

/-- `BYTES_PER_SECOND = SAMPLE_RATE * CHANNELS * SAMPLE_WIDTH` (line 24). -/
def BYTES_PER_SECOND : Nat := SAMPLE_RATE * CHANNELS * SAMPLE_WIDTH

/-- `duration_seconds = max(1, min(120, duration_seconds))` (line 105). -/
def clampDuration (d : Int) : Int := max 1 (min 120 d)

/-- `target_bytes = duration_seconds * BYTES_PER_SECOND` (line 112),
computed from the already-clamped duration. -/
def targetBytes (d : Int) : Nat := (clampDuration d).toNat * BYTES_PER_SECOND

/-- `max(60, min(200, bpm))` (line 123). -/
def clampBpm (b : Int) : Int := max 60 (min 200 b)

/-- The `asyncio.timeout(duration_seconds + 5)` deadline (line 132),
in seconds, applied after the duration was clamped at line 105. -/
def deadlineSeconds (d : Int) : Int := clampDuration d + 5

/-- The generation configuration built at lines 121–123:
`config_kwargs = {"temperature": temperature}` and, only when a bpm was
supplied, `config_kwargs["bpm"] = max(60, min(200, bpm))`.  Temperature is
a Python float carrying no arithmetic in this module; modelled as `ℚ`. -/
structure LiveMusicGenerationConfig where
  temperature : ℚ
  bpm : Option Int
  deriving DecidableEq, Repr

/-- Build the config exactly as lines 121–123 do: the temperature is put
into the kwargs unchanged; the bpm, if present, is clamped to [60,200]. -/
def buildConfig (temperature : ℚ) (bpm : Option Int) : LiveMusicGenerationConfig :=
  { temperature := temperature
    bpm := bpm.map clampBpm }

/-- The `data` field of one audio chunk: the backend may deliver it as a
base64 string or as raw bytes (`isinstance(data, str)` test, line 147). -/
inductive ChunkData where
  | b64str (s : String)
  | raw (bytes : List Nat)
  deriving DecidableEq, Repr

/-- One message from `session.receive()`: a `filtered_prompt` flag and an
optional `server_content.audio_chunks` list (`none` models a message whose
`server_content` is absent; line 143 treats that like an empty chunk list). -/
structure Message where
  filteredPrompt : Bool
  serverContent : Option (List ChunkData)
  deriving DecidableEq, Repr

/-- One observable event while the receive loop is running: either the
next message arrives, or the `asyncio.timeout` deadline fires at this
suspension point. -/
inductive Event where
  | msg (m : Message)
  | timeout
  deriving DecidableEq, Repr

/-- Lines 146–148: `data = chunk.data; if isinstance(data, str):
data = base64.b64decode(data)`.  The library decoder is a parameter
`b64` of the model. -/
def decodeChunk (b64 : String → List Nat) : ChunkData → List Nat
  | .b64str s => b64 s
  | .raw bytes => bytes

/-- The inner `for chunk in message.server_content.audio_chunks:`
loop (lines 145–149): each chunk's (decoded) data extends the buffer. -/
def appendChunks (b64 : String → List Nat) (buf : List Nat)
    (chunks : List ChunkData) : List Nat :=
  chunks.foldl (fun acc c => acc ++ decodeChunk b64 c) buf

/-- How the `async for` receive loop (lines 131–161) was exited. -/
inductive LoopExit where
  | filtered (buf : List Nat)
  | completed (buf : List Nat)
  | exhausted (buf : List Nat)
  | timedOut (buf : List Nat)
  deriving DecidableEq, Repr

/-- The buffer held at loop exit. -/
def LoopExit.buffer : LoopExit → List Nat
  | .filtered buf => buf
  | .completed buf => buf
  | .exhausted buf => buf
  | .timedOut buf => buf

/-- The receive loop, lines 133–151: for each message, the
`filtered_prompt` branch returns first (line 134); a message with no
server content or no audio chunks is skipped (line 143); otherwise all of
its chunks are appended and then — only then — the buffer is compared
with the target (line 150) and the loop breaks on `≥`.  A `timeout` event
raises `TimeoutError` (line 152); an exhausted event list models the
backend closing the stream, which ends the `async for` normally. -/
def runLoop (b64 : String → List Nat) (target : Nat) :
    List Event → List Nat → LoopExit
  | [], buf => .exhausted buf
  | .timeout :: _, buf => .timedOut buf
  | .msg m :: rest, buf =>
    if m.filteredPrompt then .filtered buf
    else
      match m.serverContent with
      | none => runLoop b64 target rest buf
      | some [] => runLoop b64 target rest buf
      | some chunks =>
        let buf' := appendChunks b64 buf chunks
        if target ≤ buf'.length then .completed buf'
        else runLoop b64 target rest buf'

/-- A still-running partial execution of the receive loop: `some buf` when
consuming these events leaves the loop running with buffer `buf`, `none`
when the loop would already have exited. -/
def runPartial (b64 : String → List Nat) (target : Nat) :
    List Event → List Nat → Option (List Nat)
  | [], buf => some buf
  | .timeout :: _, _ => none
  | .msg m :: rest, buf =>
    if m.filteredPrompt then none
    else
      match m.serverContent with
      | none => runPartial b64 target rest buf
      | some [] => runPartial b64 target rest buf
      | some chunks =>
        let buf' := appendChunks b64 buf chunks
        if target ≤ buf'.length then none
        else runPartial b64 target rest buf'

/-- Session-level calls issued by `generate_music`, in order.
`closeSession` is the `async with` context exit on
`client.aio.live.music.connect(...)` (line 114), which runs before the
function returns a value on every path out of the block. -/
inductive Action where
  | setWeightedPrompts
  | setConfig
  | play
  | stop
  | closeSession
  deriving DecidableEq, Repr

/-- Lines 117–129: prompt, config, play — before the receive loop. -/
def preActions : List Action := [.setWeightedPrompts, .setConfig, .play]

/-- Error string returned on a filtered prompt (lines 137–142). -/
def filteredPromptError : String :=
  "Error: your prompt was blocked by the safety filter. Avoid referencing real artist names, copyrighted song titles, or trademarked terms. Describe the musical style instead (e.g. genre, mood, instruments, tempo)."

/-- Error string returned on a timeout with an empty buffer (lines 155–159). -/
def emptyTimeoutError : String :=
  "Error: no audio was generated. The prompt may have been silently filtered. Avoid referencing real artist names or song titles. Describe the musical style instead."

/-- `"Warning: MinIO upload failed; file is only available locally."`
(line 184). -/
def minioWarning : String :=
  "Warning: MinIO upload failed; file is only available locally."

/-- The scheme chosen at line 77: `"https" if MINIO_SECURE else "http"`. -/
def minioScheme (secure : Bool) : String := if secure then "https" else "http"

/-- The URL built by `_upload_to_minio` (lines 77–78):
`scheme://ENDPOINT/BUCKET/object_name`. -/
def minioUrl (secure : Bool) (endpoint bucket objectName : String) : String :=
  minioScheme secure ++ "://" ++ endpoint ++ "/" ++ bucket
    ++ "/" ++ objectName

/-- `filepath = _OUTPUT_DIR / filename` (line 167). -/
def localPathStr (outputDir filename : String) : String :=
  outputDir ++ "/" ++ filename

/-- The result of one `music.generate` call, as a structured view of the
returned string: an error text (lines 137, 155), the success text with
the MinIO URL (lines 187–191), or the local-fallback text with the
degradation warning (lines 179–185).  `actualDuration` and `sizeKb` carry
the numbers interpolated into the string (lines 170–171). -/
inductive GenResult where
  | error (msg : String)
  | publishedRemote (url : String) (actualDuration : ℚ) (sizeKb : ℚ)
  | localFallback (path : String) (actualDuration : ℚ) (sizeKb : ℚ)
      (warning : String)
  deriving DecidableEq, Repr

/-- The duration figure interpolated into a non-error result string. -/
def GenResult.reportedDuration : GenResult → Option ℚ
  | .error _ => none
  | .publishedRemote _ d _ => some d
  | .localFallback _ d _ _ => some d

/-- Whether the result carries the remote locator. -/
def GenResult.isRemote : GenResult → Bool
  | .publishedRemote _ _ _ => true
  | _ => false

/-- Whether the result is the local-path fallback. -/
def GenResult.isLocalFallback : GenResult → Bool
  | .localFallback _ _ _ _ => true
  | _ => false

/-- Everything observable about one call: the result string (structured),
the session-level call trace, the PCM bytes handed to `_write_wav`
(`none` when no file is written), and whether a local file remains on
disk when the call returns. -/
structure Outcome where
  result : GenResult
  actions : List Action
  wavWritten : Option (List Nat)
  localFileKept : Bool
  deriving DecidableEq, Repr

/-- The environment of one call: everything `generate_music` consumes
that the module does not compute itself — the stream of backend events,
the standard library's base64 decoder, whether `_upload_to_minio` raises,
the MinIO configuration, the generated file name and staging directory. -/
structure Env where
  events : List Event
  b64 : String → List Nat
  uploadOk : Bool
  secure : Bool
  endpoint : String
  bucket : String
  filename : String
  outputDir : String

/-- Lines 162–192: after the loop falls through (completed, stream
exhausted, or timeout with a non-empty buffer), the session is stopped,
the buffer is truncated to `target` (line 164), the WAV is written
(line 168), duration and size are computed (lines 170–171), and the file
is published with a local-path fallback (lines 174–192). -/
def finishEncoding (target : Nat) (buf : List Nat) (env : Env) : Outcome :=
  let pcm := buf.take target
  let actualDuration : ℚ := (pcm.length : ℚ) / (BYTES_PER_SECOND : ℚ)
  let sizeKb : ℚ := ((pcm.length : ℚ) + 44) / 1024
  if env.uploadOk then
    { result := .publishedRemote
        (minioUrl env.secure env.endpoint env.bucket env.filename)
        actualDuration sizeKb
      actions := preActions ++ [.stop, .closeSession]
      wavWritten := some pcm
      localFileKept := false }
  else
    { result := .localFallback (localPathStr env.outputDir env.filename)
        actualDuration sizeKb minioWarning
      actions := preActions ++ [.stop, .closeSession]
      wavWritten := some pcm
      localFileKept := true }

/-- The whole `generate_music` tool call (lines 84–192) as a function of
the requested duration and the environment.  The filtered branch stops
the session and returns the moderation error (lines 134–142); a timeout
with an empty buffer returns the no-audio error from inside the `except`
handler, without the line-162 `stop` but still closing the session via
the `async with` exit (lines 152–159); every other exit reaches
line 162 and proceeds to encoding and publication. -/
def generateMusic (durationSeconds : Int) (env : Env) : Outcome :=
  match runLoop env.b64 (targetBytes durationSeconds) env.events [] with
  | .filtered _ =>
    { result := .error filteredPromptError
      actions := preActions ++ [.stop, .closeSession]
      wavWritten := none
      localFileKept := false }
  | .timedOut buf =>
    if buf.isEmpty then
      { result := .error emptyTimeoutError
        actions := preActions ++ [.closeSession]
        wavWritten := none
        localFileKept := false }
    else
      finishEncoding (targetBytes durationSeconds) buf env
  | .completed buf => finishEncoding (targetBytes durationSeconds) buf env
  | .exhausted buf => finishEncoding (targetBytes durationSeconds) buf env

/-! ## The WAV container written by `_write_wav` (lines 46–52)

`_write_wav` drives the standard `wave` module with the three fixed
parameters `CHANNELS`, `SAMPLE_WIDTH`, `SAMPLE_RATE` and writes the PCM
bytes with `writeframes`.  The bytes the `wave` module puts on disk for
that call sequence are the canonical 44-byte RIFF/WAVE header followed
by the payload verbatim: `writeframes` writes every byte it is given
(misaligned trailing bytes included) and on close patches the two size
fields from the count of bytes written. -/

/-- A 16-bit little-endian field. -/
def u16le (n : Nat) : List Nat := [n % 256, n / 256 % 256]

/-- A 32-bit little-endian field; the width makes the wrap explicit. -/
def u32le (n : Nat) : List Nat :=
  [n % 256, n / 256 % 256, n / 65536 % 256, n / 16777216 % 256]

/-- The 44-byte header the `wave` module emits for
`nchannels = CHANNELS`, `sampwidth = SAMPLE_WIDTH`,
`framerate = SAMPLE_RATE` and `dataLen` payload bytes written:
`"RIFF"`, riff size, `"WAVE"`, `"fmt "`, fmt size 16, PCM tag 1,
channels, sample rate, byte rate, block align, bits per sample,
`"data"`, data size. -/
def wavHeader (dataLen : Nat) : List Nat :=
  [82, 73, 70, 70] ++ u32le ((36 + dataLen) % 4294967296)
    ++ [87, 65, 86, 69] ++ [102, 109, 116, 32] ++ u32le 16 ++ u16le 1
    ++ u16le CHANNELS ++ u32le SAMPLE_RATE
    ++ u32le (SAMPLE_RATE * CHANNELS * SAMPLE_WIDTH)
    ++ u16le (CHANNELS * SAMPLE_WIDTH) ++ u16le (SAMPLE_WIDTH * 8)
    ++ [100, 97, 116, 97] ++ u32le (dataLen % 4294967296)

/-- The bytes `_write_wav pcm_data filepath` leaves in the file:
header then the PCM payload as-is. -/
def writeWav (pcm : List Nat) : List Nat := wavHeader pcm.length ++ pcm

/-- The byte at offset `off` (0 past the end). -/
def byteAt (bs : List Nat) (off : Nat) : Nat := (bs.drop off).headD 0

/-- Read a 16-bit little-endian field of a byte list. -/
def readU16le (bs : List Nat) (off : Nat) : Nat :=
  byteAt bs off + 256 * byteAt bs (off + 1)

/-- Read a 32-bit little-endian field of a byte list. -/
def readU32le (bs : List Nat) (off : Nat) : Nat :=
  byteAt bs off + 256 * byteAt bs (off + 1)
    + 65536 * byteAt bs (off + 2) + 16777216 * byteAt bs (off + 3)

/-- The channel count a decoder reads back (header offset 22). -/
def wavChannels (bs : List Nat) : Nat := readU16le bs 22

/-- The sample rate a decoder reads back (header offset 24). -/
def wavSampleRate (bs : List Nat) : Nat := readU32le bs 24

/-- The bit depth a decoder reads back (header offset 34). -/
def wavBitsPerSample (bs : List Nat) : Nat := readU16le bs 34

/-- The PCM payload a decoder reads back: everything after the 44-byte
header. -/
def wavPayload (bs : List Nat) : List Nat := bs.drop 44

/-- The decoded audio bytes one event contributes to the buffer: a
message contributes its chunks' decoded data in order; a missing
`server_content` or an empty chunk list contributes nothing; the timeout
itself contributes nothing. -/
def eventBytes (b64 : String → List Nat) : Event → List Nat
  | .msg m => appendChunks b64 [] (m.serverContent.getD [])
  | .timeout => []

/-- The decoded audio bytes a list of events contributes, in order. -/
def streamBytes (b64 : String → List Nat) : List Event → List Nat
  | [] => []
  | e :: evs => eventBytes b64 e ++ streamBytes b64 evs

/-- Whether a loop exit falls through to line 162 and on to encoding and
publication (as opposed to returning an error string first). -/
def LoopExit.proceeds : LoopExit → Bool
  | .filtered _ => false
  | .timedOut buf => !buf.isEmpty
  | .completed _ => true
  | .exhausted _ => true

/-- Modelled from the spec: the spec's data-model invariant asserts the
variability (temperature) knob is "clamped into fixed valid ranges before
use"; with the docstring's stated range 0.0–3.0 that clamp would be
`max 0 (min 3 t)`.  The source has no such computation — this definition
exists only to be compared against `buildConfig`. -/
def clampTemperatureSpec (t : ℚ) : ℚ := max 0 (min 3 t)

/-! ## Helper lemmas -/

/-- Appending chunks to a buffer is the buffer followed by the chunks'
decoded bytes. -/
theorem appendChunks_eq (b64 : String → List Nat) (buf : List Nat)
    (cs : List ChunkData) :
    appendChunks b64 buf cs = buf ++ appendChunks b64 [] cs := by
  induction cs generalizing buf with
  | nil => simp [appendChunks]
  | cons c cs ih =>
    simp only [appendChunks, List.foldl_cons] at *
    rw [ih (buf ++ decodeChunk b64 c), ih (List.nil ++ decodeChunk b64 c)]
    simp [List.append_assoc]

/-- A still-running prefix composes with the rest of the event stream. -/
theorem runPartial_append (b64 : String → List Nat) (target : Nat)
    (msgs rest : List Event) (buf b : List Nat)
    (h : runPartial b64 target msgs buf = some b) :
    runLoop b64 target (msgs ++ rest) buf = runLoop b64 target rest b := by
  induction msgs generalizing buf with
  | nil => simp [runPartial] at h; simp [h]
  | cons e msgs ih =>
    cases e with
    | timeout => simp [runPartial] at h
    | msg m =>
      simp only [runPartial] at h
      simp only [List.cons_append, runLoop]
      cases hfp : m.filteredPrompt with
      | true => simp [hfp] at h
      | false =>
        simp only [hfp] at h
        simp only [Bool.false_eq_true, if_false]
        cases hsc : m.serverContent with
        | none => simp only [hsc] at h ⊢; exact ih buf h
        | some chunks =>
          simp only [hsc] at h ⊢
          cases chunks with
          | nil => exact ih buf h
          | cons c cs =>
            simp only at h ⊢
            rcases Nat.lt_or_ge
                (appendChunks b64 buf (c :: cs)).length target with hlen | hlen
            · rw [if_neg (Nat.not_le.mpr hlen)] at h
              rw [if_neg (Nat.not_le.mpr hlen)]
              exact ih _ h
            · rw [if_pos hlen] at h; cases h

/-- A still-running buffer stays strictly under the target. -/
theorem runPartial_lt (b64 : String → List Nat) (target : Nat)
    (msgs : List Event) (buf b : List Nat) (hbuf : buf.length < target)
    (h : runPartial b64 target msgs buf = some b) : b.length < target := by
  induction msgs generalizing buf with
  | nil => simp [runPartial] at h; exact h ▸ hbuf
  | cons e msgs ih =>
    cases e with
    | timeout => simp [runPartial] at h
    | msg m =>
      simp only [runPartial] at h
      cases hfp : m.filteredPrompt with
      | true => simp [hfp] at h
      | false =>
        simp only [hfp] at h
        cases hsc : m.serverContent with
        | none => simp only [hsc] at h; exact ih buf hbuf h
        | some chunks =>
          simp only [hsc] at h
          cases chunks with
          | nil => exact ih buf hbuf h
          | cons c cs =>
            simp only at h
            rcases Nat.lt_or_ge
                (appendChunks b64 buf (c :: cs)).length target with hlen | hlen
            · rw [if_neg (Nat.not_le.mpr hlen)] at h
              exact ih _ hlen h
            · rw [if_pos hlen] at h; cases h

/-- A still-running buffer holds exactly the initial buffer followed by
the decoded bytes of every event consumed so far, in arrival order. -/
theorem runPartial_content (b64 : String → List Nat) (target : Nat)
    (msgs : List Event) (buf b : List Nat)
    (h : runPartial b64 target msgs buf = some b) :
    b = buf ++ streamBytes b64 msgs := by
  induction msgs generalizing buf with
  | nil => simp [runPartial] at h; simp [streamBytes, h.symm]
  | cons e msgs ih =>
    cases e with
    | timeout => simp [runPartial] at h
    | msg m =>
      simp only [runPartial] at h
      cases hfp : m.filteredPrompt with
      | true => simp [hfp] at h
      | false =>
        simp only [hfp] at h
        cases hsc : m.serverContent with
        | none =>
          simp only [hsc] at h
          simp [streamBytes, eventBytes, hsc, appendChunks, ih buf h]
        | some chunks =>
          simp only [hsc] at h
          cases chunks with
          | nil => simp [streamBytes, eventBytes, hsc, appendChunks, ih buf h]
          | cons c cs =>
            simp only at h
            rcases Nat.lt_or_ge
                (appendChunks b64 buf (c :: cs)).length target with hlen | hlen
            · rw [if_neg (Nat.not_le.mpr hlen)] at h
              rw [ih _ h, appendChunks_eq]
              simp [streamBytes, eventBytes, hsc, List.append_assoc]
            · rw [if_pos hlen] at h; cases h

/-- The target byte count is positive: the clamped duration is at least
one second. -/
theorem targetBytes_pos (d : Int) : 0 < targetBytes d := by
  have h1 : (1 : Int) ≤ clampDuration d := le_max_left 1 _
  have h2 : (1 : Int).toNat ≤ (clampDuration d).toNat := Int.toNat_le_toNat h1
  have h3 : 0 < BYTES_PER_SECOND := by
    norm_num [BYTES_PER_SECOND, SAMPLE_RATE, CHANNELS, SAMPLE_WIDTH]
  exact Nat.mul_pos (by omega) h3

/-- An error result is never accompanied by a WAV file. -/
theorem error_no_file (d : Int) (env : Env) (s : String)
    (h : (generateMusic d env).result = GenResult.error s) :
    (generateMusic d env).wavWritten = none := by
  simp only [generateMusic] at h ⊢
  cases hrun : runLoop env.b64 (targetBytes d) env.events [] with
  | filtered buf => simp [hrun]
  | timedOut buf =>
    simp only [hrun] at h ⊢
    cases he : buf.isEmpty with
    | true => simp [he]
    | false =>
      simp only [he, Bool.false_eq_true, if_false, finishEncoding] at h
      cases hu : env.uploadOk <;> simp [hu] at h
  | completed buf =>
    simp only [hrun, finishEncoding] at h
    cases hu : env.uploadOk <;> simp [hu] at h
  | exhausted buf =>
    simp only [hrun, finishEncoding] at h
    cases hu : env.uploadOk <;> simp [hu] at h

/-- The PCM bytes handed to the encoder are always the buffer truncated
to the target, on either publish branch. -/
theorem finishEncoding_wavWritten (target : Nat) (buf : List Nat)
    (env : Env) :
    (finishEncoding target buf env).wavWritten = some (buf.take target) := by
  unfold finishEncoding
  cases hu : env.uploadOk <;> simp [hu]

/-- A loop that broke on reaching the target proceeds to encoding. -/
theorem generateMusic_completed (d : Int) (env : Env) (buf : List Nat)
    (h : runLoop env.b64 (targetBytes d) env.events [] =
      LoopExit.completed buf) :
    generateMusic d env = finishEncoding (targetBytes d) buf env := by
  unfold generateMusic
  rw [h]

/-! ## Claim theorems -/

/-- C1: for every call with any integer duration `d` (in or out of
[1,120]), the target byte count equals
`clamp(d,1,120) × 48000 × 2 × 2`; it is computed once from the clamped
duration, and the same value is the one the final truncation applies to
whatever buffer the streaming loop produced. -/
theorem target_byte_count_from_clamped_duration (d : Int) (env : Env) :
    targetBytes d = (max 1 (min 120 d)).toNat * (48000 * 2 * 2) ∧
    ((generateMusic d env).wavWritten = none ∨
      (generateMusic d env).wavWritten =
        some ((runLoop env.b64 (targetBytes d) env.events []).buffer.take
          (targetBytes d))) := by
  constructor
  · rfl
  · simp only [generateMusic]
    cases hrun : runLoop env.b64 (targetBytes d) env.events [] with
    | filtered buf => simp [hrun]
    | timedOut buf =>
      cases he : buf.isEmpty with
      | true => simp [hrun, he]
      | false =>
        cases hu : env.uploadOk <;>
          simp [hrun, he, finishEncoding, hu, LoopExit.buffer]
    | completed buf =>
      cases hu : env.uploadOk <;>
        simp [hrun, finishEncoding, hu, LoopExit.buffer]
    | exhausted buf =>
      cases hu : env.uploadOk <;>
        simp [hrun, finishEncoding, hu, LoopExit.buffer]

/-- C3: every terminal path — completed, filtered, timed out with or
without audio — closes the streaming session before the result is
reported: the action trace always ends in `closeSession` (with the
explicit `stop` also present on all paths except the empty-timeout
return, which closes via the context-manager exit alone). -/
theorem session_closed_on_every_exit_path (d : Int) (env : Env) :
    ((generateMusic d env).actions =
        preActions ++ [Action.stop, Action.closeSession] ∨
      (generateMusic d env).actions = preActions ++ [Action.closeSession]) ∧
    (generateMusic d env).actions.getLast? = some Action.closeSession := by
  simp only [generateMusic]
  cases hrun : runLoop env.b64 (targetBytes d) env.events [] with
  | filtered buf => simp [hrun, preActions]
  | timedOut buf =>
    cases he : buf.isEmpty with
    | true => simp [hrun, he, preActions]
    | false =>
      cases hu : env.uploadOk <;>
        simp [hrun, he, finishEncoding, hu, preActions]
  | completed buf =>
    cases hu : env.uploadOk <;> simp [hrun, finishEncoding, hu, preActions]
  | exhausted buf =>
    cases hu : env.uploadOk <;> simp [hrun, finishEncoding, hu, preActions]

set_option maxHeartbeats 2000000 in
/-- C8: encoding any PCM byte sequence — aligned to the 4-byte frame
size or not — and reading the container header back reproduces the
fixed constants 48000 Hz, 2 channels, 16 bits, and the payload is
written as-is. -/
theorem wav_roundtrip_header_constants (pcm : List Nat) :
    wavSampleRate (writeWav pcm) = 48000 ∧
    wavChannels (writeWav pcm) = 2 ∧
    wavBitsPerSample (writeWav pcm) = 16 ∧
    wavPayload (writeWav pcm) = pcm := by
  have h22 : byteAt (writeWav pcm) 22 = 2 := by rfl
  have h23 : byteAt (writeWav pcm) 23 = 0 := by rfl
  have h24 : byteAt (writeWav pcm) 24 = 128 := by rfl
  have h25 : byteAt (writeWav pcm) 25 = 187 := by rfl
  have h26 : byteAt (writeWav pcm) 26 = 0 := by rfl
  have h27 : byteAt (writeWav pcm) 27 = 0 := by rfl
  have h34 : byteAt (writeWav pcm) 34 = 16 := by rfl
  have h35 : byteAt (writeWav pcm) 35 = 0 := by rfl
  refine ⟨?_, ?_, ?_, by rfl⟩
  · rw [wavSampleRate, readU32le, h24, h25, h26, h27]
  · rw [wavChannels, readU16le, h22, h23]
  · rw [wavBitsPerSample, readU16le, h34, h35]

/-- C7 counterexample: the temperature the code puts into the generation
configuration is NOT clamped into the documented range 0.0–3.0: a caller
passing 5 has 5 sent, not the clamped 3. -/
theorem temperature_not_clamped_counterexample :
    (buildConfig 5 none).temperature = 5 ∧
    clampTemperatureSpec 5 = 3 ∧
    (buildConfig 5 none).temperature ≠ clampTemperatureSpec 5 := by
  refine ⟨rfl, ?_, ?_⟩ <;>
    norm_num [buildConfig, clampTemperatureSpec]

/-- C7 amended: duration is clamped to [1,120] and a supplied bpm to
[60,200] before use (an omitted bpm is never sent), but the temperature
is passed through to the generation configuration unchanged, without any
clamp. -/
theorem duration_bpm_clamped_temperature_passthrough
    (d b : Int) (t : ℚ) (bo : Option Int) :
    1 ≤ clampDuration d ∧ clampDuration d ≤ 120 ∧
    60 ≤ clampBpm b ∧ clampBpm b ≤ 200 ∧
    (buildConfig t (some b)).bpm = some (clampBpm b) ∧
    (buildConfig t none).bpm = none ∧
    (buildConfig t bo).temperature = t := by
  refine ⟨le_max_left _ _, ?_, le_max_left _ _, ?_, rfl, rfl, rfl⟩
  · exact max_le (by norm_num) (min_le_left _ _)
  · exact max_le (by norm_num) (min_le_left _ _)

/-- C2: a moderation event arriving while the loop is still running —
after any number of frames have been buffered — yields the
moderation-rejection result with no partial audio: no WAV is written and
no local file remains. -/
theorem moderation_event_discards_buffer (d : Int) (env : Env)
    (msgs rest : List Event) (m : Message) (b : List Nat)
    (hev : env.events = msgs ++ Event.msg m :: rest)
    (hrun : runPartial env.b64 (targetBytes d) msgs [] = some b)
    (hf : m.filteredPrompt = true) :
    (generateMusic d env).result = GenResult.error filteredPromptError ∧
    (generateMusic d env).wavWritten = none ∧
    (generateMusic d env).localFileKept = false := by
  have hloop : runLoop env.b64 (targetBytes d) env.events [] =
      LoopExit.filtered b := by
    rw [hev, runPartial_append _ _ _ _ _ _ hrun]
    simp [runLoop, hf]
  simp [generateMusic, hloop]

/-- Witness for C2: a session that buffers four audio bytes and then
receives a filtered-prompt message. -/
def envWitnessC2 : Env :=
  { events := [Event.msg ⟨false, some [ChunkData.raw [1, 2, 3, 4]]⟩,
      Event.msg ⟨true, none⟩]
    b64 := fun _ => []
    uploadOk := true
    secure := true
    endpoint := "storage.example"
    bucket := "music-mcp"
    filename := "music_0.wav"
    outputDir := "/tmp/music_mcp" }

/-- C2 at a concrete input: four bytes buffered, then a moderation
event — the moderation error is returned and no file exists. -/
theorem moderation_event_discards_buffer_witness :
    (generateMusic 30 envWitnessC2).result =
      GenResult.error filteredPromptError ∧
    (generateMusic 30 envWitnessC2).wavWritten = none ∧
    (generateMusic 30 envWitnessC2).localFileKept = false :=
  moderation_event_discards_buffer 30 envWitnessC2
    [Event.msg ⟨false, some [ChunkData.raw [1, 2, 3, 4]]⟩] []
    ⟨true, none⟩ [1, 2, 3, 4] rfl (by decide) rfl

/-- C5: a deadline expiry with an empty buffer returns the no-audio
error — a string distinct from the moderation error — and produces no
file. -/
theorem empty_timeout_distinct_outcome (d : Int) (env : Env)
    (msgs rest : List Event)
    (hev : env.events = msgs ++ Event.timeout :: rest)
    (hrun : runPartial env.b64 (targetBytes d) msgs [] = some []) :
    (generateMusic d env).result = GenResult.error emptyTimeoutError ∧
    (generateMusic d env).wavWritten = none ∧
    (generateMusic d env).localFileKept = false ∧
    emptyTimeoutError ≠ filteredPromptError := by
  have hloop : runLoop env.b64 (targetBytes d) env.events [] =
      LoopExit.timedOut [] := by
    rw [hev, runPartial_append _ _ _ _ _ _ hrun]
    simp [runLoop]
  refine ⟨?_, ?_, ?_, ?_⟩
  · simp [generateMusic, hloop]
  · simp [generateMusic, hloop]
  · simp [generateMusic, hloop]
  · decide

/-- Witness for C5: the deadline fires before any message arrives. -/
def envWitnessC5 : Env :=
  { events := [Event.timeout]
    b64 := fun _ => []
    uploadOk := true
    secure := false
    endpoint := "storage.example"
    bucket := "music-mcp"
    filename := "music_1.wav"
    outputDir := "/tmp/music_mcp" }

/-- C5 at a concrete input: an immediate timeout with nothing buffered
returns the empty-timeout error, distinct from the moderation error. -/
theorem empty_timeout_distinct_outcome_witness :
    (generateMusic 7 envWitnessC5).result =
      GenResult.error emptyTimeoutError ∧
    (generateMusic 7 envWitnessC5).wavWritten = none ∧
    (generateMusic 7 envWitnessC5).localFileKept = false ∧
    emptyTimeoutError ≠ filteredPromptError :=
  empty_timeout_distinct_outcome 7 envWitnessC5 [] [] rfl rfl

/-- C4: a deadline expiry with a non-empty, under-target buffer still
succeeds: the PCM handed to the encoder is exactly the buffered bytes
(the encoded payload equals them, not the target), and the duration in
the result is `bufferedBytes / 192000` seconds. -/
theorem timeout_partial_yields_truncated_success (d : Int) (env : Env)
    (msgs rest : List Event) (b : List Nat)
    (hev : env.events = msgs ++ Event.timeout :: rest)
    (hrun : runPartial env.b64 (targetBytes d) msgs [] = some b)
    (hne : b ≠ []) :
    (generateMusic d env).wavWritten = some b ∧
    wavPayload (writeWav b) = b ∧
    (generateMusic d env).result.reportedDuration =
      some ((b.length : ℚ) / 192000) := by
  have hlt : b.length < targetBytes d :=
    runPartial_lt env.b64 (targetBytes d) msgs [] b
      (by simpa using targetBytes_pos d) hrun
  have hloop : runLoop env.b64 (targetBytes d) env.events [] =
      LoopExit.timedOut b := by
    rw [hev, runPartial_append _ _ _ _ _ _ hrun]
    simp [runLoop]
  have hbe : b.isEmpty = false := by
    cases b with
    | nil => exact absurd rfl hne
    | cons x xs => rfl
  have htake : b.take (targetBytes d) = b :=
    List.take_of_length_le (Nat.le_of_lt hlt)
  have hbps : (BYTES_PER_SECOND : ℚ) = 192000 := by
    norm_num [BYTES_PER_SECOND, SAMPLE_RATE, CHANNELS, SAMPLE_WIDTH]
  refine ⟨?_, by rfl, ?_⟩
  · cases hu : env.uploadOk <;>
      simp [generateMusic, hloop, hbe, finishEncoding, hu, htake]
  · cases hu : env.uploadOk <;>
      simp [generateMusic, hloop, hbe, finishEncoding, hu, htake,
        GenResult.reportedDuration, hbps]

/-- Witness for C4: six audio bytes (not a whole number of 4-byte
frames) arrive, then the deadline fires. -/
def envWitnessC4 : Env :=
  { events := [Event.msg ⟨false, some [ChunkData.raw [1, 2, 3, 4, 5, 6]]⟩,
      Event.timeout]
    b64 := fun _ => []
    uploadOk := true
    secure := true
    endpoint := "storage.example"
    bucket := "music-mcp"
    filename := "music_3.wav"
    outputDir := "/tmp/music_mcp" }

/-- C4 at a concrete input: six buffered bytes under a 384000-byte
target are encoded as-is and reported as 6/192000 seconds. -/
theorem timeout_partial_yields_truncated_success_witness :
    (generateMusic 2 envWitnessC4).wavWritten = some [1, 2, 3, 4, 5, 6] ∧
    wavPayload (writeWav [1, 2, 3, 4, 5, 6]) = [1, 2, 3, 4, 5, 6] ∧
    (generateMusic 2 envWitnessC4).result.reportedDuration =
      some ((([1, 2, 3, 4, 5, 6] : List Nat).length : ℚ) / 192000) :=
  timeout_partial_yields_truncated_success 2 envWitnessC4
    [Event.msg ⟨false, some [ChunkData.raw [1, 2, 3, 4, 5, 6]]⟩] []
    [1, 2, 3, 4, 5, 6] rfl (by decide) (by decide)

/-- C6: whenever the session reaches publication, exactly one of the two
result forms is produced: on upload success the remote locator (whose URL
scheme follows the secure flag) with the local file deleted; on upload
failure the local path with the degradation warning and the file kept —
and the failure never propagates as an error result. -/
theorem publish_exactly_one_result_form (d : Int) (env : Env)
    (hp : (runLoop env.b64 (targetBytes d) env.events []).proceeds = true) :
    ((generateMusic d env).result.isRemote = env.uploadOk) ∧
    ((generateMusic d env).result.isLocalFallback = !env.uploadOk) ∧
    ((generateMusic d env).localFileKept = !env.uploadOk) ∧
    (env.uploadOk = true →
      ∃ dur kb, (generateMusic d env).result =
        GenResult.publishedRemote
          (minioUrl env.secure env.endpoint env.bucket env.filename)
          dur kb) ∧
    (env.uploadOk = false →
      ∃ dur kb, (generateMusic d env).result =
        GenResult.localFallback (localPathStr env.outputDir env.filename)
          dur kb minioWarning) ∧
    minioScheme true = "https" ∧ minioScheme false = "http" := by
  cases hrun : runLoop env.b64 (targetBytes d) env.events [] with
  | filtered buf => simp [hrun, LoopExit.proceeds] at hp
  | timedOut buf =>
    rw [hrun] at hp
    simp only [LoopExit.proceeds, Bool.not_eq_true'] at hp
    cases hu : env.uploadOk <;>
      simp [generateMusic, hrun, hp, finishEncoding, hu, GenResult.isRemote,
        GenResult.isLocalFallback, minioScheme, minioUrl]
  | completed buf =>
    cases hu : env.uploadOk <;>
      simp [generateMusic, hrun, finishEncoding, hu, GenResult.isRemote,
        GenResult.isLocalFallback, minioScheme, minioUrl]
  | exhausted buf =>
    cases hu : env.uploadOk <;>
      simp [generateMusic, hrun, finishEncoding, hu, GenResult.isRemote,
        GenResult.isLocalFallback, minioScheme, minioUrl]

/-- Witness for C6: two audio bytes arrive, the stream closes, and the
upload fails — the local-fallback form is produced. -/
def envWitnessC6 : Env :=
  { events := [Event.msg ⟨false, some [ChunkData.raw [9, 9]]⟩]
    b64 := fun _ => []
    uploadOk := false
    secure := false
    endpoint := "storage.example"
    bucket := "music-mcp"
    filename := "music_4.wav"
    outputDir := "/tmp/music_mcp" }

/-- C6 at a concrete input: upload failure yields the local-fallback
result with the warning, keeps the file, and produces no remote form. -/
theorem publish_exactly_one_result_form_witness :
    ((generateMusic 3 envWitnessC6).result.isRemote = envWitnessC6.uploadOk) ∧
    ((generateMusic 3 envWitnessC6).result.isLocalFallback =
      !envWitnessC6.uploadOk) ∧
    ((generateMusic 3 envWitnessC6).localFileKept = !envWitnessC6.uploadOk) ∧
    (envWitnessC6.uploadOk = true →
      ∃ dur kb, (generateMusic 3 envWitnessC6).result =
        GenResult.publishedRemote
          (minioUrl envWitnessC6.secure envWitnessC6.endpoint
            envWitnessC6.bucket envWitnessC6.filename) dur kb) ∧
    (envWitnessC6.uploadOk = false →
      ∃ dur kb, (generateMusic 3 envWitnessC6).result =
        GenResult.localFallback
          (localPathStr envWitnessC6.outputDir envWitnessC6.filename)
          dur kb minioWarning) ∧
    minioScheme true = "https" ∧ minioScheme false = "http" :=
  publish_exactly_one_result_form 3 envWitnessC6 (by decide)

/-- Witness environment for C9: a single message whose one chunk is
192004 zero bytes, 4 bytes past the 192000-byte target of a 1-second
request. -/
def envWitnessC9 : Env :=
  { events := [Event.msg
      ⟨false, some [ChunkData.raw (List.replicate 192004 0)]⟩]
    b64 := fun _ => []
    uploadOk := true
    secure := true
    endpoint := "storage.example"
    bucket := "music-mcp"
    filename := "music_5.wav"
    outputDir := "/tmp/music_mcp" }

/-- C9: the in-stream buffer can exceed the target (the cutoff check
runs only after a whole message batch is appended: with a 192000-byte
target a 192004-byte chunk is buffered in full), yet the PCM handed to
encoding is always truncated to at most the target byte count. -/
theorem buffer_overshoot_truncated_at_encoding :
    (∀ (d : Int) (env : Env) (pcm : List Nat),
      (generateMusic d env).wavWritten = some pcm →
      pcm.length ≤ targetBytes d) ∧
    (runLoop envWitnessC9.b64 (targetBytes 1) envWitnessC9.events [] =
        LoopExit.completed (List.replicate 192004 0) ∧
      targetBytes 1 < (List.replicate (192004 : Nat) (0 : Nat)).length ∧
      (generateMusic 1 envWitnessC9).wavWritten =
        some (List.replicate 192000 0)) := by
  have ht : targetBytes 1 = 192000 := by decide
  have hrun : runLoop envWitnessC9.b64 (targetBytes 1)
      envWitnessC9.events [] = LoopExit.completed (List.replicate 192004 0) := by
    rw [ht]
    simp only [envWitnessC9, runLoop, appendChunks, decodeChunk,
      List.foldl_cons, List.foldl_nil, List.nil_append, List.length_replicate]
    norm_num
  refine ⟨?_, hrun, ?_, ?_⟩
  · intro d env pcm h
    simp only [generateMusic] at h
    cases hr : runLoop env.b64 (targetBytes d) env.events [] <;>
        rw [hr] at h
    case filtered buf => simp at h
    case timedOut buf =>
      cases he : buf.isEmpty with
      | true => simp [he] at h
      | false =>
        cases hu : env.uploadOk <;>
            simp [he, finishEncoding, hu] at h <;>
          · rw [← h, List.length_take]
            exact min_le_left _ _
    case completed buf =>
      cases hu : env.uploadOk <;> simp [finishEncoding, hu] at h <;>
        · rw [← h, List.length_take]
          exact min_le_left _ _
    case exhausted buf =>
      cases hu : env.uploadOk <;> simp [finishEncoding, hu] at h <;>
        · rw [← h, List.length_take]
          exact min_le_left _ _
  · rw [ht]
    simp only [List.length_replicate]
    norm_num
  · have hmin : min (192000 : Nat) 192004 = 192000 := min_eq_left (by norm_num)
    rw [generateMusic_completed 1 envWitnessC9 (List.replicate 192004 0) hrun,
      finishEncoding_wavWritten, ht, List.take_replicate, hmin]

/-- C9 at a concrete input: the truncated payload respects the target. -/
theorem buffer_overshoot_truncated_at_encoding_witness :
    (List.replicate (192000 : Nat) (0 : Nat)).length ≤ targetBytes 1 :=
  buffer_overshoot_truncated_at_encoding.1 1 envWitnessC9
    (List.replicate 192000 0)
    buffer_overshoot_truncated_at_encoding.2.2.2

/-- C10: a chunk whose data arrives as a string is base64-decoded and a
chunk already in bytes is appended unchanged, so a still-running buffer
is always exactly the concatenation of the decoded data of every chunk
received so far, in order. -/
theorem chunk_data_decoded_before_append (b64 : String → List Nat) :
    (∀ s, decodeChunk b64 (ChunkData.b64str s) = b64 s) ∧
    (∀ bytes, decodeChunk b64 (ChunkData.raw bytes) = bytes) ∧
    (∀ (target : Nat) (msgs : List Event) (b : List Nat),
      runPartial b64 target msgs [] = some b → b = streamBytes b64 msgs) := by
  refine ⟨fun _ => rfl, fun _ => rfl, fun target msgs b h => ?_⟩
  simpa using runPartial_content b64 target msgs [] b h

/-- C10 at a concrete input: one message delivering a string chunk
(decoded through the supplied decoder) and a bytes chunk (verbatim). -/
theorem chunk_data_decoded_before_append_witness :
    ([10, 20, 7, 8] : List Nat) =
      streamBytes (fun s => [s.length * 10, 20])
        [Event.msg ⟨false, some [ChunkData.b64str "A", ChunkData.raw [7, 8]]⟩] :=
  (chunk_data_decoded_before_append (fun s => [s.length * 10, 20])).2.2 100
    [Event.msg ⟨false, some [ChunkData.b64str "A", ChunkData.raw [7, 8]]⟩]
    [10, 20, 7, 8] (by decide)

end MusicMcp
